import Mathlib

/-!
Shallow embedding of the focalboard fork's notification and admin
subsystems, translated from the Go sources:
  * server/services/permissions/localpermissions/localpermissions.go
  * server/services/store/sqlstore/user_notifications.go
  * server/model/user_notification.go
  * server/api/admin.go
  * the notification REST handlers and app layer.
SQL tables are modelled as lists of rows; a parameterized statement that
can fail at Exec time takes an explicit `dbOk : Bool`.  Clock and id
generation (`utils.GetMillis`, `utils.NewID`) are passed in as explicit
`now` / `newId` arguments.
-/

namespace Focalboard

/-- A database-layer error (`sql` / driver error), opaque to the claims. -/
inductive DbErr
  | dbError
deriving DecidableEq, Repr

/-- The REST response classes produced by `errorResponse` / the success
paths of the handlers. -/
inductive Response
  | ok
  | unauthorized
  | badRequest
  | notFound
  | internalError
deriving DecidableEq, Repr

/-- `mmModel.Permission`: only the `Id` field is consulted by the code. -/
structure Permission where
  id : String
deriving DecidableEq, Repr

/-- `model.PermissionManageSystem` (Mattermost's manage-system capability). -/
def permissionManageSystem : Permission := ⟨"manage_system"⟩

/-- `model.User`: the fields the embedded code paths touch. -/
structure User where
  id : String
  createAt : Int
  username : String
  email : String
  password : String
deriving DecidableEq, Repr

/-- `localpermissions.Service`: the store handle is passed per call as the
`GetAllUsers` result, so only the two cache fields remain as state. -/
structure PermService where
  firstUserID : String
  firstUserDone : Bool
deriving DecidableEq, Repr

/-- `localpermissions.New`: fresh service with an empty cache. -/
def PermService.new : PermService := ⟨"", false⟩

/-- One iteration of the oldest-user loop in `Service.HasPermissionTo`:
`if oldestUser == nil || u.CreateAt < oldestUser.CreateAt { oldestUser = u }`. -/
def oldestStep (acc : Option User) (u : User) : Option User :=
  match acc with
  | none => some u
  | some o => if u.createAt < o.createAt then some u else some o

/-- The oldest-user loop of `Service.HasPermissionTo`: fold `oldestStep`
over the user list starting from `oldestUser := nil`. -/
def findOldest (users : List User) : Option User :=
  users.foldl oldestStep none

/-- `Service.HasPermissionTo` (localpermissions.go lines 30-53).
`getAllUsers` is the result of `s.store.GetAllUsers()`; the returned
service carries the updated cache. -/
def hasPermissionTo (s : PermService) (getAllUsers : Except DbErr (List User))
    (userID : String) (permission : Permission) : Bool × PermService :=
  if permission.id = permissionManageSystem.id then
    let s1 :=
      if !s.firstUserDone then
        let s2 :=
          match getAllUsers with
          | .ok users =>
            if users.length > 0 then
              match findOldest users with
              | some oldest => { s with firstUserID := oldest.id }
              | none => s
            else s
          | .error _ => s
        { s2 with firstUserDone := true }
      else s
    (userID = s1.firstUserID, s1)
  else (false, s)

/-- `model.UserNotification`: one row of the `user_notifications` table. -/
structure UserNotification where
  id : String
  targetUserId : String
  actorUserId : String
  actorName : String
  type : String
  cardId : String
  cardTitle : String
  boardId : String
  read : Bool
  createAt : Int
  updateAt : Int
deriving DecidableEq, Repr

/-- `model.NewUserNotification` (user_notification.go lines 69-84), with
the clock and generated id made explicit. -/
def newUserNotification (now : Int) (newId : String)
    (targetUserID actorUserID actorName notifType cardID cardTitle boardID : String) :
    UserNotification :=
  { id := newId
    targetUserId := targetUserID
    actorUserId := actorUserID
    actorName := actorName
    type := notifType
    cardId := cardID
    cardTitle := cardTitle
    boardId := boardID
    read := false
    createAt := now
    updateAt := now }

/-- `SQLStore.createUserNotification` (user_notifications.go lines 56-86):
overwrites `ID`, `CreateAt`, `UpdateAt` and inserts every field of the
(mutated) struct — including `Read` as it arrived.  `dbOk` models whether
the INSERT's `Exec` succeeds. -/
def createUserNotification (dbOk : Bool) (now : Int) (newId : String)
    (notification : UserNotification) (store : List UserNotification) :
    Except DbErr UserNotification × List UserNotification :=
  let row := { notification with id := newId, createAt := now, updateAt := now }
  if dbOk then (.ok row, store ++ [row]) else (.error .dbError, store)

/-- `SQLStore.getUnreadNotificationCount` (lines 108-121):
`COUNT(*) WHERE target_user_id = userID AND is_read = false`. -/
def getUnreadNotificationCount (userID : String) (store : List UserNotification) : Nat :=
  (store.filter (fun r => r.targetUserId = userID ∧ r.read = false)).length

/-- `SQLStore.markNotificationAsRead` (lines 123-149):
`UPDATE ... SET is_read = true, update_at = now WHERE id = notificationID
AND target_user_id = userID`; returns nil even when zero rows were
affected (only a warning is logged).  Result: (error, new table, rows
affected). -/
def markNotificationAsRead (dbOk : Bool) (now : Int) (notificationID userID : String)
    (store : List UserNotification) :
    Except DbErr Unit × List UserNotification × Nat :=
  if dbOk then
    (.ok (),
     store.map (fun r =>
       if r.id = notificationID ∧ r.targetUserId = userID then
         { r with read := true, updateAt := now }
       else r),
     (store.filter (fun r => r.id = notificationID ∧ r.targetUserId = userID)).length)
  else (.error .dbError, store, 0)

/-- `SQLStore.markAllNotificationsAsRead` (lines 151-161):
`UPDATE ... SET is_read = true, update_at = now WHERE target_user_id =
userID AND is_read = false`. -/
def markAllNotificationsAsRead (dbOk : Bool) (now : Int) (userID : String)
    (store : List UserNotification) :
    Except DbErr Unit × List UserNotification :=
  if dbOk then
    (.ok (),
     store.map (fun r =>
       if r.targetUserId = userID ∧ r.read = false then
         { r with read := true, updateAt := now }
       else r))
  else (.error .dbError, store)

/-- `SQLStore.deleteUserNotification` (lines 163-170):
`DELETE WHERE id = notificationID AND target_user_id = userID`. -/
def deleteUserNotification (dbOk : Bool) (notificationID userID : String)
    (store : List UserNotification) :
    Except DbErr Unit × List UserNotification :=
  if dbOk then
    (.ok (), store.filter (fun r => ¬(r.id = notificationID ∧ r.targetUserId = userID)))
  else (.error .dbError, store)

/-- `App.CreateAndBroadcastNotification`: insert via the store, return the
error (and no entity) if the insert fails, otherwise invoke
`wsAdapter.BroadcastUserNotification(notification.TargetUserID, created)`
— a call with no return value, so a delivery failure (`broadcastOk =
false`, third component empty) cannot reach the caller.  The third
component records the (userID, payload) pushes that were delivered. -/
def createAndBroadcastNotification (dbOk broadcastOk : Bool) (now : Int) (newId : String)
    (notification : UserNotification) (store : List UserNotification) :
    Except DbErr UserNotification × List UserNotification ×
      List (String × UserNotification) :=
  match createUserNotification dbOk now newId notification store with
  | (.error e, store1) => (.error e, store1, [])
  | (.ok created, store1) =>
    (.ok created, store1,
     if broadcastOk then [(notification.targetUserId, created)] else [])

/-- `API.handleCreateNotification` behind `sessionRequired`: reads and
unmarshals the body (`body = none` models a read/unmarshal failure), then
calls `CreateAndBroadcastNotification`.  The source never consults
`a.permissions` nor `getUserID(r)` in this handler, so `sessionUserID`
is accepted (the middleware guarantees a live session) but unused. -/
def handleCreateNotification (sessionUserID : String) (body : Option UserNotification)
    (dbOk broadcastOk : Bool) (now : Int) (newId : String)
    (store : List UserNotification) :
    Response × List UserNotification × List (String × UserNotification) :=
  match body with
  | none => (.internalError, store, [])
  | some notification =>
    match createAndBroadcastNotification dbOk broadcastOk now newId notification store with
    | (.error _, store1, events) => (.internalError, store1, events)
    | (.ok _, store1, events) => (.ok, store1, events)

/-- `API.handleMarkAsRead`: path id + session user, forwards to the store;
any store error becomes an error response, otherwise 200 with `{}`. -/
def handleMarkAsRead (dbOk : Bool) (now : Int) (notificationID sessionUserID : String)
    (store : List UserNotification) : Response × List UserNotification :=
  match markNotificationAsRead dbOk now notificationID sessionUserID store with
  | (.error _, store1, _) => (.internalError, store1)
  | (.ok _, store1, _) => (.ok, store1)

/-- `API.handleMarkAllAsRead`. -/
def handleMarkAllAsRead (dbOk : Bool) (now : Int) (sessionUserID : String)
    (store : List UserNotification) : Response × List UserNotification :=
  match markAllNotificationsAsRead dbOk now sessionUserID store with
  | (.error _, store1) => (.internalError, store1)
  | (.ok _, store1) => (.ok, store1)

/-- `API.handleDeleteNotification`. -/
def handleDeleteNotification (dbOk : Bool) (notificationID sessionUserID : String)
    (store : List UserNotification) : Response × List UserNotification :=
  match deleteUserNotification dbOk notificationID sessionUserID store with
  | (.error _, store1) => (.internalError, store1)
  | (.ok _, store1) => (.ok, store1)

/-- `AdminSetPasswordData` (admin.go lines 16-18). -/
structure AdminSetPasswordData where
  password : String
deriving DecidableEq, Repr

/-- `AdminUpdateUserData` (admin.go lines 21-25): absent JSON fields decode
to the empty string. -/
structure AdminUpdateUserData where
  username : String
  email : String
  password : String
deriving DecidableEq, Repr

/-- `strings.Contains(s, substr)` from the Go standard library: reports
whether `substr` occurs inside `s` (char-list rendering of UTF-8 strings). -/
def goContains (s sub : List Char) : Bool :=
  match s with
  | [] => sub.isEmpty
  | _ :: t => sub.isPrefixOf s || goContains t sub

/-- `API.handleAdminSetPassword` (admin.go lines 35-71).  `body = none`
models a read/unmarshal failure.  The third component records the
`(username, password)` pair forwarded to `a.app.UpdateUserPassword`
(`none` when no data-access call was made); the user table itself is
outside this handler's view. -/
def handleAdminSetPassword (username : String) (body : Option AdminSetPasswordData) :
    Response × Option (String × String) :=
  match body with
  | none => (.internalError, none)
  | some requestData =>
    if !goContains requestData.password.data "".data then
      (.badRequest, none)
    else
      (.ok, some (username, requestData.password))

/-- `API.handleAdminGetAllUsers` (admin.go lines 74-101): permission check
first, then `GetAllUsers`.  Second component: the data returned to the
caller (`none` when no user data was read). -/
def handleAdminGetAllUsers (perm : PermService) (getAllUsers : Except DbErr (List User))
    (sessionUserID : String) (users : List User) :
    Response × Option (List User) × PermService :=
  let check := hasPermissionTo perm getAllUsers sessionUserID permissionManageSystem
  if !check.1 then (.unauthorized, none, check.2)
  else (.ok, some users, check.2)

/-- `API.handleAdminGetUser` (admin.go lines 104-135): permission check,
then `GetUser(userID)` (not-found surfaces as an error response). -/
def handleAdminGetUser (perm : PermService) (getAllUsers : Except DbErr (List User))
    (sessionUserID pathUserID : String) (users : List User) :
    Response × Option User × PermService :=
  let check := hasPermissionTo perm getAllUsers sessionUserID permissionManageSystem
  if !check.1 then (.unauthorized, none, check.2)
  else
    match users.find? (fun u => u.id = pathUserID) with
    | none => (.notFound, none, check.2)
    | some user => (.ok, some user, check.2)

/-- `API.handleAdminUpdateUser` (admin.go lines 138-209): permission check
happens before the body is even read; then the user is looked up, username
and email are overwritten when non-empty, the user is saved, and a
non-empty password is forwarded to `UpdateUserPasswordByID` (modelled as
overwriting the stored password). -/
def handleAdminUpdateUser (perm : PermService) (getAllUsers : Except DbErr (List User))
    (sessionUserID pathUserID : String) (body : Option AdminUpdateUserData)
    (users : List User) :
    Response × List User × PermService :=
  let check := hasPermissionTo perm getAllUsers sessionUserID permissionManageSystem
  if !check.1 then (.unauthorized, users, check.2)
  else
    match body with
    | none => (.internalError, users, check.2)
    | some updateData =>
      match users.find? (fun u => u.id = pathUserID) with
      | none => (.notFound, users, check.2)
      | some user =>
        let user1 := if updateData.username ≠ "" then { user with username := updateData.username } else user
        let user2 := if updateData.email ≠ "" then { user1 with email := updateData.email } else user1
        let users1 := users.map (fun u => if u.id = pathUserID then user2 else u)
        let users2 :=
          if updateData.password ≠ "" then
            users1.map (fun u => if u.id = pathUserID then { u with password := updateData.password } else u)
          else users1
        (.ok, users2, check.2)

/-- `API.handleAdminDeleteUser` (admin.go lines 212-245): permission check,
then the self-deletion guard (`userID == session.UserID` → bad request),
then `DeleteUser`. -/
def handleAdminDeleteUser (perm : PermService) (getAllUsers : Except DbErr (List User))
    (sessionUserID pathUserID : String) (users : List User) :
    Response × List User × PermService :=
  let check := hasPermissionTo perm getAllUsers sessionUserID permissionManageSystem
  if !check.1 then (.unauthorized, users, check.2)
  else if pathUserID = sessionUserID then (.badRequest, users, check.2)
  else (.ok, users.filter (fun u => ¬(u.id = pathUserID)), check.2)

/-! ## Helper lemmas -/

lemma foldl_oldestStep_eq (t : List User) (m : User) :
    ∀ a : User,
      (∀ u ∈ t, u ≠ m → m.createAt < u.createAt) →
      (m ∈ t ∨ a = m) →
      (a = m ∨ m.createAt < a.createAt) →
      t.foldl oldestStep (some a) = some m := by
  induction t with
  | nil =>
    intro a _ hmem ha
    rcases hmem with h | h
    · cases h
    · simp [h]
  | cons u t ih =>
    intro a hmin hmem ha
    rw [List.foldl_cons]
    by_cases hc : u.createAt < a.createAt
    · have hstep : oldestStep (some a) u = some u := by simp [oldestStep, hc]
      rw [hstep]
      by_cases hum : u = m
      · exact ih u (fun v hv => hmin v (List.mem_cons_of_mem _ hv)) (Or.inr hum) (Or.inl hum)
      · have hmu : m.createAt < u.createAt := hmin u (List.mem_cons_self _ _) hum
        have hmt : m ∈ t := by
          rcases hmem with h | h
          · rcases List.mem_cons.mp h with h2 | h2
            · exact absurd h2.symm hum
            · exact h2
          · exfalso
            rw [h] at hc
            exact absurd (hmu.trans hc) (lt_irrefl _)
        exact ih u (fun v hv => hmin v (List.mem_cons_of_mem _ hv)) (Or.inl hmt) (Or.inr hmu)
    · have hstep : oldestStep (some a) u = some a := by simp [oldestStep, hc]
      rw [hstep]
      have hmem2 : m ∈ t ∨ a = m := by
        rcases hmem with h | h
        · rcases List.mem_cons.mp h with h2 | h2
          · rcases ha with h3 | h3
            · exact Or.inr h3
            · rw [h2] at h3
              exact absurd h3 hc
          · exact Or.inl h2
        · exact Or.inr h
      exact ih a (fun v hv => hmin v (List.mem_cons_of_mem _ hv)) hmem2 ha

lemma findOldest_unique_min (users : List User) (m : User)
    (hmem : m ∈ users)
    (hmin : ∀ u ∈ users, u ≠ m → m.createAt < u.createAt) :
    findOldest users = some m := by
  cases users with
  | nil => cases hmem
  | cons u t =>
    have h0 : findOldest (u :: t) = t.foldl oldestStep (some u) := by
      simp [findOldest, oldestStep]
    rw [h0]
    by_cases hum : u = m
    · exact foldl_oldestStep_eq t m u (fun v hv => hmin v (List.mem_cons_of_mem _ hv))
        (Or.inr hum) (Or.inl hum)
    · have hmt : m ∈ t := by
        rcases List.mem_cons.mp hmem with h | h
        · exact absurd h.symm hum
        · exact h
      exact foldl_oldestStep_eq t m u (fun v hv => hmin v (List.mem_cons_of_mem _ hv))
        (Or.inl hmt) (Or.inr (hmin u (List.mem_cons_self _ _) hum))

lemma empty_string_data : "".data = [] := rfl

lemma goContains_nil (s : List Char) : goContains s [] = true := by
  cases s <;> simp [goContains, List.isPrefixOf]

lemma map_eq_self_of {α : Type} (l : List α) (f : α → α) (h : ∀ x ∈ l, f x = x) :
    l.map f = l := by
  induction l with
  | nil => rfl
  | cons x t ih =>
    simp only [List.map_cons]
    rw [h x (List.mem_cons_self _ _), ih (fun y hy => h y (List.mem_cons_of_mem _ hy))]

lemma markAll_filter_nil (now : Int) (u : String) (store : List UserNotification) :
    (store.map (fun r =>
        if r.targetUserId = u ∧ r.read = false then { r with read := true, updateAt := now }
        else r)).filter (fun r => r.targetUserId = u ∧ r.read = false) = [] := by
  induction store with
  | nil => rfl
  | cons r t ih =>
    by_cases hc : r.targetUserId = u ∧ r.read = false
    · rw [List.map_cons, if_pos hc, List.filter_cons, if_neg]
      · exact ih
      · simp
    · rw [List.map_cons, if_neg hc, List.filter_cons, if_neg]
      · exact ih
      · simpa using hc

/-! ## Claims -/

/-- C1 counterexample: `HasPermissionTo` does not track the current
smallest-`CreateAt` user.  (i) With an empty user store and the empty
userID it returns `true`, where the claim demands `false`.  (ii) After the
first check caches user `A`, a later check against a store in which `B`
has the smallest `CreateAt` still returns `false` for `B` and `true` for
`A`, contradicting the claim's "also after later registrations or
deletions change which user has the smallest CreateAt". -/
theorem c1_counterexample :
    (hasPermissionTo PermService.new (.ok []) "" permissionManageSystem).1 = true ∧
    (hasPermissionTo
        (hasPermissionTo PermService.new (.ok [⟨"A", 5, "", "", ""⟩]) "A"
          permissionManageSystem).2
        (.ok [⟨"B", 1, "", "", ""⟩, ⟨"A", 5, "", "", ""⟩]) "B"
        permissionManageSystem).1 = false ∧
    (hasPermissionTo
        (hasPermissionTo PermService.new (.ok [⟨"A", 5, "", "", ""⟩]) "A"
          permissionManageSystem).2
        (.ok [⟨"B", 1, "", "", ""⟩, ⟨"A", 5, "", "", ""⟩]) "A"
        permissionManageSystem).1 = true := by
  decide

/-- C1 (amended): `HasPermissionTo` returns `false` for every permission
other than manage-system.  For manage-system it returns `true` exactly
when `userID` equals the service's cached first-user ID: the cache is
fixed at the first manage-system check — to the ID of the user with the
(unique) smallest `CreateAt` when `GetAllUsers` succeeds with a nonempty
list, and left at its initial value (the empty string, which then matches
the empty `userID`) when the list is empty or the lookup fails — and is
never recomputed afterwards, so later registrations or deletions do not
change the answer. -/
theorem c1_amended :
    (∀ (s : PermService) (ur : Except DbErr (List User)) (uid : String) (p : Permission),
        p.id ≠ permissionManageSystem.id → hasPermissionTo s ur uid p = (false, s)) ∧
    (∀ (s : PermService) (ur : Except DbErr (List User)) (uid : String),
        s.firstUserDone = true →
        hasPermissionTo s ur uid permissionManageSystem = (decide (uid = s.firstUserID), s)) ∧
    (∀ (s : PermService) (uid : String) (users : List User) (m : User),
        s.firstUserDone = false → m ∈ users →
        (∀ u ∈ users, u ≠ m → m.createAt < u.createAt) →
        hasPermissionTo s (.ok users) uid permissionManageSystem
          = (decide (uid = m.id), ⟨m.id, true⟩)) ∧
    (∀ (s : PermService) (uid : String),
        s.firstUserDone = false →
        hasPermissionTo s (.ok []) uid permissionManageSystem
          = (decide (uid = s.firstUserID), ⟨s.firstUserID, true⟩)) ∧
    (∀ (s : PermService) (uid : String) (e : DbErr),
        s.firstUserDone = false →
        hasPermissionTo s (.error e) uid permissionManageSystem
          = (decide (uid = s.firstUserID), ⟨s.firstUserID, true⟩)) := by
  refine ⟨?_, ?_, ?_, ?_, ?_⟩
  · intro s ur uid p hp
    simp [hasPermissionTo, hp]
  · intro s ur uid hdone
    simp [hasPermissionTo, hdone]
  · intro s uid users m hdone hmem hmin
    have hne : users.length > 0 := by
      cases users with
      | nil => cases hmem
      | cons u t => simp
    simp [hasPermissionTo, hdone, hne, findOldest_unique_min users m hmem hmin]
  · intro s uid hdone
    simp [hasPermissionTo, hdone]
  · intro s uid e hdone
    simp [hasPermissionTo, hdone]

/-- C1 amended, witness: at a fresh service with users `b` (CreateAt 1)
and `a` (CreateAt 5), the check for `b` succeeds and caches `b`. -/
theorem c1_amended_witness :
    hasPermissionTo ⟨"", false⟩ (.ok [⟨"b", 1, "", "", ""⟩, ⟨"a", 5, "", "", ""⟩]) "b"
      permissionManageSystem = (decide ("b" = "b"), ⟨"b", true⟩) := by
  exact c1_amended.2.2.1 ⟨"", false⟩ "b" [⟨"b", 1, "", "", ""⟩, ⟨"a", 5, "", "", ""⟩]
    ⟨"b", 1, "", "", ""⟩ rfl (List.mem_cons_self _ _)
    (by
      intro u hu hne
      rcases List.mem_cons.mp hu with h | h
      · exact absurd h hne
      · rcases List.mem_cons.mp h with h2 | h2
        · rw [h2]; decide
        · cases h2)

/-- C10: the "password is required" branch of `handleAdminSetPassword` is
unreachable — `strings.Contains(p, "")` is `true` for every `p`, so every
decoded body (the empty password included) is forwarded to
`UpdateUserPassword` and the handler never answers bad-request. -/
theorem c10_password_guard_unreachable :
    (∀ p : String, goContains p.data "".data = true) ∧
    (∀ username p : String,
        handleAdminSetPassword username (some ⟨p⟩) = (.ok, some (username, p))) ∧
    handleAdminSetPassword "admin" (some ⟨""⟩) = (.ok, some ("admin", "")) ∧
    (∀ (username : String) (body : Option AdminSetPasswordData),
        (handleAdminSetPassword username body).1 ≠ .badRequest) := by
  refine ⟨?_, ?_, ?_, ?_⟩
  · intro p
    rw [empty_string_data]
    exact goContains_nil p.data
  · intro username p
    simp [handleAdminSetPassword, empty_string_data, goContains_nil]
  · decide
  · intro username body
    cases body with
    | none => simp [handleAdminSetPassword]
    | some d => simp [handleAdminSetPassword, empty_string_data, goContains_nil]

/-- C2 counterexample: `handleCreateNotification` performs no capability or
ownership check.  Caller `alice` does not hold manage-system (the first
registered user is `bob`) and is not the target of the body, yet the POST
succeeds, persists a row targeting `bob`, and broadcasts it — instead of
the authorization failure with no state change that the claim requires. -/
theorem c2_counterexample :
    (hasPermissionTo PermService.new (.ok [⟨"bob", 1, "bob", "", ""⟩]) "alice"
        permissionManageSystem).1 = false ∧
    handleCreateNotification "alice"
        (some ⟨"", "bob", "alice", "Alice", "assigned", "c1", "T", "brd1", false, 0, 0⟩)
        true true 100 "nid" []
      = (.ok,
         [⟨"nid", "bob", "alice", "Alice", "assigned", "c1", "T", "brd1", false, 100, 100⟩],
         [("bob", ⟨"nid", "bob", "alice", "Alice", "assigned", "c1", "T", "brd1", false,
            100, 100⟩)]) := by
  decide

/-- C2 (amended): the admin routes do enforce the manage-system capability
before any data access, but the notification routes enforce only a live
session: `handleCreateNotification` is independent of the caller's
identity (hence of any capability the caller holds), and for every
authenticated caller and every decoded body it persists the notification
and broadcasts it to the body's `targetUserId`, with no ownership
relation between caller and target required. -/
theorem c2_amended :
    (∀ (sid sid2 : String) (body : Option UserNotification) (dbOk bOk : Bool)
        (now : Int) (newId : String) (store : List UserNotification),
        handleCreateNotification sid body dbOk bOk now newId store
          = handleCreateNotification sid2 body dbOk bOk now newId store) ∧
    (∀ (sid : String) (n : UserNotification) (now : Int) (newId : String)
        (store : List UserNotification),
        handleCreateNotification sid (some n) true true now newId store
          = (.ok, store ++ [{ n with id := newId, createAt := now, updateAt := now }],
             [(n.targetUserId, { n with id := newId, createAt := now, updateAt := now })])) := by
  constructor
  · intro sid sid2 body dbOk bOk now newId store
    rfl
  · intro sid n now newId store
    rfl

/-- C3 counterexample: the create-notification endpoint stores whatever
`read` flag the request body carries: a body with `"read": true` produces
a row stored and returned with `read = true`, so "stored with read=false
for every request body" fails. -/
theorem c3_counterexample :
    handleCreateNotification "alice"
        (some ⟨"", "bob", "alice", "Alice", "assigned", "c1", "T", "brd1", true, 0, 0⟩)
        true true 100 "nid" []
      = (.ok,
         [⟨"nid", "bob", "alice", "Alice", "assigned", "c1", "T", "brd1", true, 100, 100⟩],
         [("bob", ⟨"nid", "bob", "alice", "Alice", "assigned", "c1", "T", "brd1", true,
            100, 100⟩)]) ∧
    (⟨"nid", "bob", "alice", "Alice", "assigned", "c1", "T", "brd1", true, 100, 100⟩ :
        UserNotification).read = true := by
  decide

/-- C3 (amended): the endpoint stores and returns the notification with
`read` equal to the request body's `read` field (`id`, `createAt`,
`updateAt` are server-assigned); a body whose JSON omits `read` decodes to
Go's zero value `false`, and `NewUserNotification` always constructs
`read = false` — so the assignment scenario's row has `read: false`, but
not "for every request body". -/
theorem c3_amended :
    (∀ (sid : String) (n : UserNotification) (now : Int) (newId : String)
        (store : List UserNotification),
        handleCreateNotification sid (some n) true true now newId store
          = (.ok, store ++ [{ n with id := newId, createAt := now, updateAt := now }],
             [(n.targetUserId, { n with id := newId, createAt := now, updateAt := now })]) ∧
        ({ n with id := newId, createAt := now, updateAt := now } : UserNotification).read
          = n.read) ∧
    (∀ (now : Int) (newId t a an ty c ct b : String),
        (newUserNotification now newId t a an ty c ct b).read = false) := by
  constructor
  · intro sid n now newId store
    exact ⟨rfl, rfl⟩
  · intro now newId t a an ty c ct b
    rfl

/-- C9: in `CreateAndBroadcastNotification` the insert strictly precedes
the broadcast: a failing insert yields the error with no created entity,
no broadcast and an unchanged store (and the endpoint answers with an
error response); and the REST-visible result (returned entity and stored
table) is identical whether the broadcast delivery succeeds or fails —
the broadcast has no error path back to the caller. -/
theorem c9_insert_before_broadcast :
    (∀ (bOk : Bool) (now : Int) (newId : String) (n : UserNotification)
        (store : List UserNotification),
        createAndBroadcastNotification false bOk now newId n store
          = (.error .dbError, store, [])) ∧
    (∀ (now : Int) (newId : String) (n : UserNotification)
        (store : List UserNotification),
        (createAndBroadcastNotification true true now newId n store).1
          = (createAndBroadcastNotification true false now newId n store).1 ∧
        (createAndBroadcastNotification true true now newId n store).2.1
          = (createAndBroadcastNotification true false now newId n store).2.1) ∧
    (∀ (sid : String) (n : UserNotification) (bOk : Bool) (now : Int) (newId : String)
        (store : List UserNotification),
        handleCreateNotification sid (some n) false bOk now newId store
          = (.internalError, store, [])) := by
  refine ⟨?_, ?_, ?_⟩
  · intro bOk now newId n store
    rfl
  · intro now newId n store
    exact ⟨rfl, rfl⟩
  · intro sid n bOk now newId store
    rfl

/-- C4: mark-all-notifications-read updates, with `update_at := now`,
exactly the stored rows whose `target_user_id` is the caller and whose
`is_read` was false, leaves every other row unchanged in every field
(positions and length preserved), afterwards the caller's unread count is
zero, and the store call and the endpoint both report success. -/
theorem c4_mark_all_read (now : Int) (u : String) (store : List UserNotification) :
    (markAllNotificationsAsRead true now u store).1 = .ok () ∧
    (markAllNotificationsAsRead true now u store).2.length = store.length ∧
    (∀ (i : Nat) (r : UserNotification), store[i]? = some r →
        r.targetUserId = u → r.read = false →
        (markAllNotificationsAsRead true now u store).2[i]?
          = some { r with read := true, updateAt := now }) ∧
    (∀ (i : Nat) (r : UserNotification), store[i]? = some r →
        ¬(r.targetUserId = u ∧ r.read = false) →
        (markAllNotificationsAsRead true now u store).2[i]? = some r) ∧
    getUnreadNotificationCount u (markAllNotificationsAsRead true now u store).2 = 0 ∧
    handleMarkAllAsRead true now u store
      = (.ok, (markAllNotificationsAsRead true now u store).2) := by
  have h2eq : (markAllNotificationsAsRead true now u store).2
      = store.map (fun r =>
          if r.targetUserId = u ∧ r.read = false then { r with read := true, updateAt := now }
          else r) := rfl
  refine ⟨rfl, ?_, ?_, ?_, ?_, rfl⟩
  · rw [h2eq, List.length_map]
  · intro i r hir h1 h2
    rw [h2eq, List.getElem?_map, hir, Option.map_some']
    rw [if_pos ⟨h1, h2⟩]
  · intro i r hir hc
    rw [h2eq, List.getElem?_map, hir, Option.map_some']
    rw [if_neg hc]
  · rw [h2eq]
    show (List.filter _ _).length = 0
    rw [markAll_filter_nil]
    rfl

/-- C4, witness: with `bob`'s unread row and `carol`'s unread row stored,
marking all read for `bob` flips only `bob`'s row (stamping `updateAt`),
leaves `carol`'s row identical, and `bob`'s unread count drops to zero. -/
theorem c4_mark_all_read_witness :
    (markAllNotificationsAsRead true 9 "bob"
        [⟨"n1", "bob", "a", "A", "assigned", "c", "T", "b", false, 1, 1⟩,
         ⟨"n2", "carol", "a", "A", "assigned", "c", "T", "b", false, 2, 2⟩]).2[0]?
      = some ⟨"n1", "bob", "a", "A", "assigned", "c", "T", "b", true, 1, 9⟩ ∧
    (markAllNotificationsAsRead true 9 "bob"
        [⟨"n1", "bob", "a", "A", "assigned", "c", "T", "b", false, 1, 1⟩,
         ⟨"n2", "carol", "a", "A", "assigned", "c", "T", "b", false, 2, 2⟩]).2[1]?
      = some ⟨"n2", "carol", "a", "A", "assigned", "c", "T", "b", false, 2, 2⟩ ∧
    getUnreadNotificationCount "bob"
      (markAllNotificationsAsRead true 9 "bob"
        [⟨"n1", "bob", "a", "A", "assigned", "c", "T", "b", false, 1, 1⟩,
         ⟨"n2", "carol", "a", "A", "assigned", "c", "T", "b", false, 2, 2⟩]).2 = 0 :=
  ⟨(c4_mark_all_read 9 "bob"
      [⟨"n1", "bob", "a", "A", "assigned", "c", "T", "b", false, 1, 1⟩,
       ⟨"n2", "carol", "a", "A", "assigned", "c", "T", "b", false, 2, 2⟩]).2.2.1 0
      ⟨"n1", "bob", "a", "A", "assigned", "c", "T", "b", false, 1, 1⟩ rfl rfl rfl,
   (c4_mark_all_read 9 "bob"
      [⟨"n1", "bob", "a", "A", "assigned", "c", "T", "b", false, 1, 1⟩,
       ⟨"n2", "carol", "a", "A", "assigned", "c", "T", "b", false, 2, 2⟩]).2.2.2.1 1
      ⟨"n2", "carol", "a", "A", "assigned", "c", "T", "b", false, 2, 2⟩ rfl (by decide),
   (c4_mark_all_read 9 "bob"
      [⟨"n1", "bob", "a", "A", "assigned", "c", "T", "b", false, 1, 1⟩,
       ⟨"n2", "carol", "a", "A", "assigned", "c", "T", "b", false, 2, 2⟩]).2.2.2.2.1⟩

/-- C5: when no stored notification has the given id with the caller as
its target, `markNotificationAsRead` succeeds with zero rows affected and
an unchanged store, and the endpoint answers 200 — an idempotent no-op,
not an error. -/
theorem c5_mark_read_missing_noop (now : Int) (nid uid : String)
    (store : List UserNotification)
    (h : ∀ r ∈ store, ¬(r.id = nid ∧ r.targetUserId = uid)) :
    markNotificationAsRead true now nid uid store = (.ok (), store, 0) ∧
    handleMarkAsRead true now nid uid store = (.ok, store) := by
  have hmap : store.map (fun r =>
      if r.id = nid ∧ r.targetUserId = uid then { r with read := true, updateAt := now }
      else r) = store :=
    map_eq_self_of _ _ (fun r hr => if_neg (h r hr))
  have hfil : store.filter (fun r => r.id = nid ∧ r.targetUserId = uid) = [] := by
    rw [List.filter_eq_nil_iff]
    intro r hr
    simpa using h r hr
  have hmk : markNotificationAsRead true now nid uid store = (.ok (), store, 0) := by
    have he : markNotificationAsRead true now nid uid store
        = (.ok (), store.map (fun r =>
            if r.id = nid ∧ r.targetUserId = uid then { r with read := true, updateAt := now }
            else r),
           (store.filter (fun r => r.id = nid ∧ r.targetUserId = uid)).length) := rfl
    rw [he, hmap, hfil]
    rfl
  refine ⟨hmk, ?_⟩
  simp only [handleMarkAsRead, hmk]

/-- C5, witness: marking the absent id `nX` as read for `alice` over a
store holding only `bob`'s row `n1` changes nothing and reports success. -/
theorem c5_mark_read_missing_noop_witness :
    markNotificationAsRead true 9 "nX" "alice"
        [⟨"n1", "bob", "a", "A", "assigned", "c", "T", "b", false, 1, 1⟩]
      = (.ok (), [⟨"n1", "bob", "a", "A", "assigned", "c", "T", "b", false, 1, 1⟩], 0) ∧
    handleMarkAsRead true 9 "nX" "alice"
        [⟨"n1", "bob", "a", "A", "assigned", "c", "T", "b", false, 1, 1⟩]
      = (.ok, [⟨"n1", "bob", "a", "A", "assigned", "c", "T", "b", false, 1, 1⟩]) :=
  c5_mark_read_missing_noop 9 "nX" "alice"
    [⟨"n1", "bob", "a", "A", "assigned", "c", "T", "b", false, 1, 1⟩]
    (by
      intro r hr
      rcases List.mem_cons.mp hr with h | h
      · rw [h]; decide
      · cases h)

/-- C6: deleting a notification whose stored rows with that id all belong
to someone other than the caller removes no row and changes no field (the
DELETE is scoped by both `id` and `target_user_id`), and both the store
call and the endpoint still report success. -/
theorem c6_delete_foreign_noop (nid uid : String) (store : List UserNotification)
    (h : ∀ r ∈ store, r.id = nid → ¬(r.targetUserId = uid)) :
    deleteUserNotification true nid uid store = (.ok (), store) ∧
    handleDeleteNotification true nid uid store = (.ok, store) := by
  have hfil : store.filter (fun r => ¬(r.id = nid ∧ r.targetUserId = uid)) = store := by
    rw [List.filter_eq_self]
    intro r hr
    simp only [decide_eq_true_eq]
    intro hand
    exact h r hr hand.1 hand.2
  have hdel : deleteUserNotification true nid uid store = (.ok (), store) := by
    have he : deleteUserNotification true nid uid store
        = (.ok (), store.filter (fun r => ¬(r.id = nid ∧ r.targetUserId = uid))) := rfl
    rw [he, hfil]
  refine ⟨hdel, ?_⟩
  simp only [handleDeleteNotification, hdel]

/-- C6, witness: `alice` deleting `bob`'s notification `n1` leaves the
store identical and still gets 200. -/
theorem c6_delete_foreign_noop_witness :
    deleteUserNotification true "n1" "alice"
        [⟨"n1", "bob", "a", "A", "assigned", "c", "T", "b", false, 1, 1⟩]
      = (.ok (), [⟨"n1", "bob", "a", "A", "assigned", "c", "T", "b", false, 1, 1⟩]) ∧
    handleDeleteNotification true "n1" "alice"
        [⟨"n1", "bob", "a", "A", "assigned", "c", "T", "b", false, 1, 1⟩]
      = (.ok, [⟨"n1", "bob", "a", "A", "assigned", "c", "T", "b", false, 1, 1⟩]) :=
  c6_delete_foreign_noop "n1" "alice"
    [⟨"n1", "bob", "a", "A", "assigned", "c", "T", "b", false, 1, 1⟩]
    (by
      intro r hr _
      rcases List.mem_cons.mp hr with h | h
      · rw [h]; decide
      · cases h)

/-- C7: an admin (a caller passing the manage-system check) who targets
their own account on the admin delete-user route gets a bad-request
rejection and the user table is returned unchanged — `DeleteUser` is
never reached. -/
theorem c7_self_delete_rejected (perm : PermService) (ur : Except DbErr (List User))
    (uid : String) (users : List User)
    (h : (hasPermissionTo perm ur uid permissionManageSystem).1 = true) :
    handleAdminDeleteUser perm ur uid uid users
      = (.badRequest, users, (hasPermissionTo perm ur uid permissionManageSystem).2) := by
  simp [handleAdminDeleteUser, h]

/-- C7, witness: the cached admin `admin` deleting `admin` is rejected
with bad-request and the single stored user survives. -/
theorem c7_self_delete_rejected_witness :
    handleAdminDeleteUser ⟨"admin", true⟩ (.ok []) "admin" "admin"
        [⟨"admin", 1, "root", "", ""⟩]
      = (.badRequest, [⟨"admin", 1, "root", "", ""⟩],
         (hasPermissionTo ⟨"admin", true⟩ (.ok []) "admin" permissionManageSystem).2) :=
  c7_self_delete_rejected ⟨"admin", true⟩ (.ok []) "admin"
    [⟨"admin", 1, "root", "", ""⟩] (by decide)

/-- C8: a caller failing the manage-system check receives `unauthorized`
from every admin-users route, with no user data read (payload `none`) and
no mutation (user table returned as-is); the update route's answer is the
same for every request body, so two invocations differing only in body
content coincide. -/
theorem c8_nonadmin_rejected (perm : PermService) (ur : Except DbErr (List User))
    (sid pid : String) (users : List User)
    (h : (hasPermissionTo perm ur sid permissionManageSystem).1 = false) :
    handleAdminGetAllUsers perm ur sid users
      = (.unauthorized, none, (hasPermissionTo perm ur sid permissionManageSystem).2) ∧
    handleAdminGetUser perm ur sid pid users
      = (.unauthorized, none, (hasPermissionTo perm ur sid permissionManageSystem).2) ∧
    (∀ body : Option AdminUpdateUserData,
        handleAdminUpdateUser perm ur sid pid body users
          = (.unauthorized, users, (hasPermissionTo perm ur sid permissionManageSystem).2)) ∧
    handleAdminDeleteUser perm ur sid pid users
      = (.unauthorized, users, (hasPermissionTo perm ur sid permissionManageSystem).2) := by
  refine ⟨?_, ?_, ?_, ?_⟩
  · simp [handleAdminGetAllUsers, h]
  · simp [handleAdminGetUser, h]
  · intro body
    simp [handleAdminUpdateUser, h]
  · simp [handleAdminDeleteUser, h]

/-- C8, witness: non-admin `mallory` (the cached first user is `admin`)
is turned away from the list route and from the update route with two
different bodies, with identical unauthorized outcomes and an untouched
user table. -/
theorem c8_nonadmin_rejected_witness :
    handleAdminGetAllUsers ⟨"admin", true⟩ (.ok []) "mallory"
        [⟨"admin", 1, "root", "", ""⟩]
      = (.unauthorized, none,
         (hasPermissionTo ⟨"admin", true⟩ (.ok []) "mallory" permissionManageSystem).2) ∧
    handleAdminUpdateUser ⟨"admin", true⟩ (.ok []) "mallory" "admin"
        (some ⟨"evil", "e@x", "pw"⟩) [⟨"admin", 1, "root", "", ""⟩]
      = (.unauthorized, [⟨"admin", 1, "root", "", ""⟩],
         (hasPermissionTo ⟨"admin", true⟩ (.ok []) "mallory" permissionManageSystem).2) ∧
    handleAdminUpdateUser ⟨"admin", true⟩ (.ok []) "mallory" "admin"
        (some ⟨"", "", ""⟩) [⟨"admin", 1, "root", "", ""⟩]
      = (.unauthorized, [⟨"admin", 1, "root", "", ""⟩],
         (hasPermissionTo ⟨"admin", true⟩ (.ok []) "mallory" permissionManageSystem).2) :=
  ⟨(c8_nonadmin_rejected ⟨"admin", true⟩ (.ok []) "mallory" "admin"
      [⟨"admin", 1, "root", "", ""⟩] (by decide)).1,
   (c8_nonadmin_rejected ⟨"admin", true⟩ (.ok []) "mallory" "admin"
      [⟨"admin", 1, "root", "", ""⟩] (by decide)).2.2.1 (some ⟨"evil", "e@x", "pw"⟩),
   (c8_nonadmin_rejected ⟨"admin", true⟩ (.ok []) "mallory" "admin"
      [⟨"admin", 1, "root", "", ""⟩] (by decide)).2.2.1 (some ⟨"", "", ""⟩)⟩

end Focalboard
